import Mathlib

/-!
Verification of the vehicle-experimental-simulator core against its code.

The Python sources are shallowly embedded over `ℚ`: Python float literals
are taken as exact rationals, Python `%` on floats is `pyMod`
(`x - y * ⌊x / y⌋`), Python `int()` truncation toward zero is `pyInt`,
and the two trigonometric values `math.sin(radians(slope))`,
`math.cos(radians(slope))` appearing in the physics update are passed in
as abstract rational parameters (the claims proved here hold for every
value of those parameters).
-/

namespace VES

/-! ## Constants (src/config.py, src/game/renderer.py, src/game/ai_agent.py) -/

/-- config.py: `WINDOW_WIDTH = 1000`. -/
def WINDOW_WIDTH : ℚ := 1000

/-- config.py: `WINDOW_HEIGHT = 750`. -/
def WINDOW_HEIGHT : ℚ := 750

/-- config.py: `ROAD_WIDTH = 9000`. -/
def ROAD_WIDTH : ℚ := 9000

/-- config.py: `SEGMENT_LENGTH = 400`. -/
def SEGMENT_LENGTH : ℚ := 400

/-- config.py: `CAMERA_DEPTH = 0.84`. -/
def CAMERA_DEPTH : ℚ := 84 / 100

/-- config.py: `GRAVITY = 9.81`. -/
def GRAVITY : ℚ := 981 / 100

/-- config.py: `AIR_DENSITY = 1.225`. -/
def AIR_DENSITY : ℚ := 1225 / 1000

/-- config.py: `MAX_VELOCITY = 600`. -/
def MAX_VELOCITY : ℚ := 600

/-- config.py: `MIN_VELOCITY = 0`. -/
def MIN_VELOCITY : ℚ := 0

/-- config.py: `MAX_ACCELERATION = 60`. -/
def MAX_ACCELERATION : ℚ := 60

/-- config.py: `MIN_ACCELERATION = -60`. -/
def MIN_ACCELERATION : ℚ := -60

/-- renderer.py: `TOTAL_SEGMENTS = 1600`. -/
def TOTAL_SEGMENTS : ℚ := 1600

/-- ai_agent.py: `TRACK_LEN = TOTAL_SEGMENTS * SEGMENT_LENGTH`. -/
def TRACK_LEN : ℚ := TOTAL_SEGMENTS * SEGMENT_LENGTH

/-- ai_agent.py: `ALPHA = 0.15`. -/
def ALPHA : ℚ := 15 / 100

/-- ai_agent.py: `GAMMA = 0.92`. -/
def GAMMA : ℚ := 92 / 100

/-- ai_agent.py: `EPSILON_START = 1.0`. -/
def EPSILON_START : ℚ := 1

/-- ai_agent.py: `EPSILON_MIN = 0.05`. -/
def EPSILON_MIN : ℚ := 5 / 100

/-- ai_agent.py: `EPSILON_DECAY = 0.9995`. -/
def EPSILON_DECAY : ℚ := 9995 / 10000

/-- ai_agent.py: `MAX_SPEED = 600.0`. -/
def MAX_SPEED : ℚ := 600

/-- ai_agent.py: `ROAD_HALF = 4500.0`. -/
def ROAD_HALF : ℚ := 4500

/-! ## Python numeric primitives -/

/-- Python float `%` with positive divisor: `x % y = x - y*⌊x/y⌋`. -/
def pyMod (x y : ℚ) : ℚ := x - y * ⌊x / y⌋

/-- Python `int()` on a float: truncation toward zero. -/
def pyInt (q : ℚ) : ℤ := if 0 ≤ q then ⌊q⌋ else ⌈q⌉

/-! ## Renderer: Line and projection (src/game/renderer.py lines 27-57) -/

/-- One road segment (`Line` in renderer.py), restricted to its numeric
fields; sprites and colours are irrelevant to projection. -/
structure Line where
  i      : ℕ := 0
  x      : ℚ := 0
  y      : ℚ := 0
  z      : ℚ := 0
  X      : ℚ := 0
  Y      : ℚ := 0
  W      : ℚ := 0
  scale  : ℚ := 0
  curve  : ℚ := 0
  spriteX : ℚ := 0
  clip   : ℚ := 0
  deriving DecidableEq, Repr

/-- renderer.py lines 52-57: `Line.project` mutates `scale`, `X`, `Y`,
`W` from the camera position; `X`, `Y`, `W` read the freshly written
`scale`. -/
def Line.project (l : Line) (cam_x cam_y cam_z : ℚ) : Line :=
  let scale := CAMERA_DEPTH / (l.z - cam_z)
  { l with
    scale := scale
    X := (1 + scale * (l.x - cam_x)) * WINDOW_WIDTH / 2
    Y := (1 - scale * (l.y - cam_y)) * WINDOW_HEIGHT / 2
    W := scale * ROAD_WIDTH * WINDOW_WIDTH / 2 }

/-! ## Physics: VehicleState (src/game/physics.py) -/

/-- All fields of the `VehicleState` dataclass (physics.py lines 21-64).
`gear_ratios` and the cosmetic fields are carried so that frame-effect
claims can state that they are untouched. -/
structure VehicleState where
  velocity             : ℚ := 0
  position             : ℚ := 0
  acceleration         : ℚ := 0
  acceleration_clamped : ℚ := 0
  air_resistance        : ℚ := 0
  rolling_resistance    : ℚ := 0
  drag_losses           : ℚ := 0
  rr_losses             : ℚ := 0
  fuel_consumption_rate : ℚ := 0
  engine_force_current  : ℚ := 0
  total_distance : ℚ := 0
  tire_wear      : ℚ := 0
  lap_time       : ℚ := 0
  mass              : ℚ := 1500
  frontal_area      : ℚ := 22 / 10
  drag_coeff        : ℚ := 3 / 10
  rr_coeff          : ℚ := 15 / 1000
  base_engine_force : ℚ := 4000
  gear_ratios       : List ℚ := [35/10, 21/10, 16/10, 13/10, 11/10]
  current_gear      : ℤ := 3
  slope             : ℚ := 1
  engine_temperature : ℚ := 90
  brake_temperature  : ℚ := 30
  nitro_level        : ℚ := 100
  engine_rpm         : ℤ := 0
  gf_force           : ℚ := (981 / 100) * 1500

/-- physics.py lines 68-134: `VehicleState.update`.  `slopeSin` and
`slopeCos` stand for `math.sin(math.radians(self.slope))` and
`math.cos(math.radians(self.slope))` (transcendental values abstracted as
parameters). The statement order of the source is kept: position
integrates the half-stepped velocity before the clamp, the displayed
losses and fuel rate read the post-clamp velocity. -/
def VehicleState.update (s : VehicleState) (slopeSin slopeCos : ℚ)
    (dt : ℚ) (moving : Bool) (throttle_boost : ℚ) (braking : Bool) :
    VehicleState :=
  let s := { s with lap_time := s.lap_time + dt }
  if moving = false then s
  else
    let slope_inf := GRAVITY * slopeSin
    let engine_f :=
      if braking then s.base_engine_force - 1500
      else s.base_engine_force + throttle_boost
    let air := 1/2 * AIR_DENSITY * s.frontal_area * s.drag_coeff * s.velocity ^ 2
    let roll := s.rr_coeff * s.mass * GRAVITY * slopeCos * air / 10000
    let net := engine_f - air - roll + slope_inf * s.mass
    let acc := net / s.mass
    let v1 := s.velocity + acc * dt / 2
    let pos := s.position + v1 * dt + 1/2 * acc * dt ^ 2
    let v2 := max MIN_VELOCITY (min MAX_VELOCITY v1)
    let dl := (1/2 * AIR_DENSITY * v2 * s.frontal_area * s.drag_coeff) * dt
    let rl := s.rr_coeff * s.mass * GRAVITY * (v2 * (1/1000))
    { s with
      air_resistance := air
      rolling_resistance := roll
      acceleration := acc
      acceleration_clamped := max MIN_ACCELERATION (min acc MAX_ACCELERATION)
      engine_force_current := engine_f
      velocity := v2
      position := pos
      drag_losses := dl
      rr_losses := rl
      fuel_consumption_rate := ((engine_f + v2) / (1/2) + dl + rl) / 3
      total_distance := s.total_distance + v2 * dt }

/-- One frame's inputs to `VehicleState.update` with `moving = true`. -/
structure DriveInput where
  slopeSin : ℚ
  slopeCos : ℚ
  dt       : ℚ
  throttle_boost : ℚ
  braking  : Bool

/-- Fold a sequence of driving frames over a state. -/
def driveRun (s : VehicleState) (l : List DriveInput) : VehicleState :=
  l.foldl (fun st i => st.update i.slopeSin i.slopeCos i.dt true i.throttle_boost i.braking) s

/-- Inputs of a `moving = false` frame. -/
structure IdleInput where
  slopeSin : ℚ
  slopeCos : ℚ
  dt       : ℚ
  throttle_boost : ℚ
  braking  : Bool

/-- Fold a sequence of idle (`moving = false`) frames over a state. -/
def idleRun (s : VehicleState) (l : List IdleInput) : VehicleState :=
  l.foldl (fun st i => st.update i.slopeSin i.slopeCos i.dt false i.throttle_boost i.braking) s

/-! ## AI agent: discretisation, reward, Q-update, epsilon
    (src/game/ai_agent.py) -/

/-- ai_agent.py lines 49-52: `_bucket(value, min_v, max_v, n)`.
Python `int()` truncates toward zero (`pyInt`). -/
def bucket (value min_v max_v : ℚ) (n : ℤ) : ℤ :=
  max 0 (min (n - 1) (pyInt ((value - min_v) / (max_v - min_v) * n)))

/-- ai_agent.py lines 63-65 and 95-97 (identical three lines in
`_make_state` and `_compute_reward`): raw circular gap followed by the
half-track wrap correction. -/
def signedGap (player_pos ai_pos : ℚ) : ℚ :=
  let gap := pyMod (player_pos - ai_pos) TRACK_LEN
  if gap > TRACK_LEN / 2 then gap - TRACK_LEN else gap

/-- ai_agent.py lines 55-67: `_make_state`. -/
def makeState (ai_speed ai_lane_x player_pos ai_pos : ℚ) : ℤ × ℤ × ℤ :=
  (bucket ai_speed 0 MAX_SPEED 5,
   bucket ai_lane_x (-ROAD_HALF) ROAD_HALF 5,
   bucket (signedGap player_pos ai_pos) (-(TRACK_LEN / 2)) (TRACK_LEN / 2) 5)

/-- ai_agent.py lines 72-103: `_compute_reward`. -/
def computeReward (ai_speed ai_lane_x player_pos ai_pos : ℚ)
    (on_road : Bool) : ℚ :=
  let r1 := 0 + ai_speed / MAX_SPEED * 2
  let r2 := if on_road = false then r1 - 3 else r1
  let r3 := if |ai_lane_x| < ROAD_HALF * (6/10) then r2 + 3/10 else r2 - 5/10
  let gap := signedGap player_pos ai_pos
  if 0 < gap ∧ gap < TRACK_LEN * (1/10) then r3 + 1
  else if gap > TRACK_LEN * (3/10) then r3 - 1
  else r3

/-- Discretised states, as produced by `_make_state`. -/
abbrev QState := ℤ × ℤ × ℤ

/-- The five actions (`ACTIONS = [0, 1, 2, 3, 4]`). -/
abbrev QAction := Fin 5

/-- The Q-table.  ai_agent.py lines 128-130 use a `defaultdict` whose
rows are lazily zero-initialised, so semantically the table is the total
function defaulting to 0. -/
abbrev QTable := QState → QAction → ℚ

/-- Python `max(self._q[next_state].values())`: the maximum of the five
action values of a row. -/
def bestVal (q : QTable) (s : QState) : ℚ :=
  q s 0 ⊔ q s 1 ⊔ q s 2 ⊔ q s 3 ⊔ q s 4

/-- ai_agent.py lines 149-159: `_update_q` overwrites `Q[s][a]` with
`old + ALPHA * (reward + GAMMA * best_next - old)` and leaves every other
entry alone. -/
def updateQ (q : QTable) (s : QState) (a : QAction) (reward : ℚ)
    (next_state : QState) : QTable :=
  fun t b =>
    if t = s ∧ b = a then
      q s a + ALPHA * (reward + GAMMA * bestVal q next_state - q s a)
    else q t b

/-- Repeatedly apply `_update_q` to the same `(s, a)` pair with the same
reward and with the next state equal to `s` (the setting of the
convergence claim). -/
def qIter (q0 : QTable) (s : QState) (a : QAction) (reward : ℚ) : ℕ → QTable
  | 0 => q0
  | n + 1 => updateQ (qIter q0 s a reward n) s a reward s

/-- ai_agent.py line 225 (inside `QLearningAI.update`):
`self.epsilon = max(EPSILON_MIN, self.epsilon * EPSILON_DECAY)` —
the only statement that ever writes `epsilon` after `__init__`. -/
def epsStep (e : ℚ) : ℚ := max EPSILON_MIN (e * EPSILON_DECAY)

/-- Epsilon after `n` calls to `QLearningAI.update`, starting from
`EPSILON_START` (ai_agent.py line 132). -/
def epsAfter : ℕ → ℚ
  | 0 => EPSILON_START
  | n + 1 => epsStep (epsAfter n)

/-! ## Lap tracker (src/game/game_window.py, class LapTracker) -/

/-- game_window.py: `LapTracker.TRIGGER = SEGMENT_LENGTH * 3`. -/
def TRIGGER : ℚ := SEGMENT_LENGTH * 3

/-- The `LapTracker` fields (game_window.py). -/
structure LapTracker where
  lap_count : ℕ := 0
  lap_time  : ℚ := 0
  best_lap  : Option ℚ := none
  was_near  : Bool := false
  deriving DecidableEq, Repr

/-- game_window.py, `LapTracker.update(dt, track_pos)`: accumulate lap
time, then on an Away→Near edge with more than 2 s accumulated, count a
lap, update the best lap, reset the timer and latch the flag; leaving the
trigger zone clears the flag. Returns the new tracker and the boolean the
method returns. -/
def LapTracker.update (t : LapTracker) (dt track_pos : ℚ) :
    LapTracker × Bool :=
  let lt := t.lap_time + dt
  if track_pos < TRIGGER ∧ t.was_near = false ∧ lt > 2 then
    ({ lap_count := t.lap_count + 1
       best_lap :=
         match t.best_lap with
         | none => some lt
         | some b => if lt < b then some lt else some b
       lap_time := 0
       was_near := true }, true)
  else if ¬ track_pos < TRIGGER then
    ({ t with lap_time := lt, was_near := false }, false)
  else
    ({ t with lap_time := lt }, false)

/-- Fold a sequence of `(dt, track_pos)` frames over a tracker. -/
def lapRun (t : LapTracker) (l : List (ℚ × ℚ)) : LapTracker :=
  l.foldl (fun tr p => (tr.update p.1 p.2).1) t

/-! ## Leaderboard sorting (src/ui/menu.py lines 23-61)

The Python code sorts a list of score dicts in place; the embedding is
the corresponding functional program on lists of records `(id, score)`,
where `id` stands for the record's identity (username etc.). -/

/-- A score record: `(identity, score)`. -/
abbrev ScoreRec := ℕ × ℚ

/-- menu.py lines 23-30, `_insertion_sort` inner loop: insert `x` into
the descending-sorted list `l`, shifting entries while
`key["score"] > data[j]["score"]` — so `x` lands after every entry whose
score is ≥ its own. -/
def insDesc (x : ScoreRec) : List ScoreRec → List ScoreRec
  | [] => [x]
  | y :: ys => if x.2 > y.2 then x :: y :: ys else y :: insDesc x ys

/-- menu.py lines 23-30, `_insertion_sort`: left-to-right insertion into
the sorted prefix. -/
def isortDesc (l : List ScoreRec) : List ScoreRec :=
  l.foldl (fun acc x => insDesc x acc) []

/-- menu.py lines 33-47, `_merge`: while both halves are nonempty take
the left element if its score is strictly greater, otherwise the right
element; then append the leftover half. -/
def mergeDesc : List ScoreRec → List ScoreRec → List ScoreRec
  | [], r => r
  | a :: l, [] => a :: l
  | a :: l, b :: r =>
      if a.2 > b.2 then a :: mergeDesc l (b :: r)
      else b :: mergeDesc (a :: l) r

/-- menu.py lines 50-61, `merge_sort_scores`: runs of at most 10 records
are insertion-sorted, longer lists are split at
`mid = (start + end) // 2` (a left part of `(n-1)/2 + 1` records) and
merged. -/
def msortScores (l : List ScoreRec) : List ScoreRec :=
  if _h : l.length ≤ 10 then isortDesc l
  else
    mergeDesc (msortScores (l.take ((l.length - 1) / 2 + 1)))
      (msortScores (l.drop ((l.length - 1) / 2 + 1)))
termination_by l.length
decreasing_by
  · simp only [List.length_take]
    omega
  · simp only [List.length_drop]
    omega

/-- Descending order on score records: the left score dominates. -/
abbrev scoreGE (x y : ScoreRec) : Prop := y.2 ≤ x.2

/-- Eleven records sharing one score — more than the 10-record
insertion-sort cutoff, so one `_merge` runs on them. -/
def elevenEqual : List ScoreRec :=
  [(0, 0), (1, 0), (2, 0), (3, 0), (4, 0), (5, 0),
   (6, 0), (7, 0), (8, 0), (9, 0), (10, 0)]

/-- The default `VehicleState` (all dataclass defaults). -/
def initVehicle : VehicleState := {}

/-- The Q-table that is all zeros (a freshly created `defaultdict`). -/
def zeroQ : QTable := fun _ _ => 0

/-- The 125-element space `{0..4}³` of discretised states. -/
def stateSpace : Finset (ℤ × ℤ × ℤ) :=
  Finset.Icc 0 4 ×ˢ Finset.Icc 0 4 ×ˢ Finset.Icc 0 4

/-! ## Helper lemmas -/

/-- A `moving = false` frame only advances the lap timer. -/
lemma update_idle (s : VehicleState) (ss sc dt tb : ℚ) (br : Bool) :
    s.update ss sc dt false tb br = { s with lap_time := s.lap_time + dt } :=
  rfl

/-- The clamp `max MIN_VELOCITY (min MAX_VELOCITY x)` always lands in
`[0, 600]`. -/
lemma clamp_bounds (x : ℚ) :
    0 ≤ max MIN_VELOCITY (min MAX_VELOCITY x) ∧
    max MIN_VELOCITY (min MAX_VELOCITY x) ≤ 600 := by
  constructor
  · exact le_trans (by norm_num [MIN_VELOCITY]) (le_max_left _ _)
  · exact max_le (by norm_num [MIN_VELOCITY])
      (le_trans (min_le_left _ _) (by norm_num [MAX_VELOCITY]))

/-- A `moving = true` frame leaves the velocity inside `[0, 600]`,
whatever the state and inputs were. -/
lemma drive_velocity_clamped (s : VehicleState) (ss sc dt tb : ℚ)
    (br : Bool) :
    0 ≤ (s.update ss sc dt true tb br).velocity ∧
    (s.update ss sc dt true tb br).velocity ≤ 600 :=
  clamp_bounds _

/-! ## C1 — projection formulas -/

/-- C1: for every road segment and camera input with `segment.z ≠ camZ`,
`Line.project` sets `scale = CAMERA_DEPTH / (z - camZ)`,
`X = (1 + scale*(x - camX)) * (WINDOW_WIDTH / 2)`,
`Y = (1 - scale*(y - camY)) * (WINDOW_HEIGHT / 2)` and
`W = scale * ROAD_WIDTH * (WINDOW_WIDTH / 2)`. -/
theorem C1_project_formulas (ln : Line) (camX camY camZ : ℚ)
    (h : ln.z ≠ camZ) :
    (ln.project camX camY camZ).scale = CAMERA_DEPTH / (ln.z - camZ) ∧
    (ln.project camX camY camZ).X =
      (1 + CAMERA_DEPTH / (ln.z - camZ) * (ln.x - camX)) * (WINDOW_WIDTH / 2) ∧
    (ln.project camX camY camZ).Y =
      (1 - CAMERA_DEPTH / (ln.z - camZ) * (ln.y - camY)) * (WINDOW_HEIGHT / 2) ∧
    (ln.project camX camY camZ).W =
      CAMERA_DEPTH / (ln.z - camZ) * ROAD_WIDTH * (WINDOW_WIDTH / 2) := by
  refine ⟨rfl, ?_, ?_, ?_⟩ <;> simp only [Line.project] <;> ring

/-- Witness for C1 at a concrete segment (`z = 400`) and camera at the
origin. -/
theorem C1_witness :
    ({ z := 400 } : Line).z ≠ 0 ∧
    ((({ z := 400 } : Line).project 0 0 0).scale =
        CAMERA_DEPTH / (({ z := 400 } : Line).z - 0) ∧
     (({ z := 400 } : Line).project 0 0 0).X =
        (1 + CAMERA_DEPTH / (({ z := 400 } : Line).z - 0) *
          (({ z := 400 } : Line).x - 0)) * (WINDOW_WIDTH / 2) ∧
     (({ z := 400 } : Line).project 0 0 0).Y =
        (1 - CAMERA_DEPTH / (({ z := 400 } : Line).z - 0) *
          (({ z := 400 } : Line).y - 0)) * (WINDOW_HEIGHT / 2) ∧
     (({ z := 400 } : Line).project 0 0 0).W =
        CAMERA_DEPTH / (({ z := 400 } : Line).z - 0) * ROAD_WIDTH *
          (WINDOW_WIDTH / 2)) :=
  ⟨by decide, C1_project_formulas { z := 400 } 0 0 0 (by decide)⟩

/-! ## C2 — velocity stays in [0, 600] -/

/-- C2: starting from a velocity in `[0, 600]`, any sequence of
`moving = true` updates — any `dt`, throttle boost, braking flag, engine
force (it is a state field, quantified through the state) and slope trig
values — keeps the velocity inside `[MIN_VELOCITY, MAX_VELOCITY] =
[0, 600]` after each call. -/
theorem C2_velocity_clamped (s : VehicleState)
    (h0 : 0 ≤ s.velocity) (h1 : s.velocity ≤ 600) (l : List DriveInput) :
    0 ≤ (driveRun s l).velocity ∧ (driveRun s l).velocity ≤ 600 := by
  induction l generalizing s with
  | nil => exact ⟨h0, h1⟩
  | cons i rest ih =>
    have h := drive_velocity_clamped s i.slopeSin i.slopeCos i.dt
      i.throttle_boost i.braking
    simpa [driveRun] using ih _ h.1 h.2

/-- Witness for C2: the default state, one frame with a huge throttle
boost. -/
theorem C2_witness :
    (0 ≤ initVehicle.velocity ∧ initVehicle.velocity ≤ 600) ∧
    (0 ≤ (driveRun initVehicle [⟨0, 1, 1/60, 1000000, false⟩]).velocity ∧
     (driveRun initVehicle [⟨0, 1, 1/60, 1000000, false⟩]).velocity ≤ 600) :=
  ⟨⟨by norm_num [initVehicle], by norm_num [initVehicle]⟩,
   C2_velocity_clamped initVehicle (by norm_num [initVehicle])
     (by norm_num [initVehicle]) _⟩

/-! ## C3 — rest frames freeze the dynamics -/

/-- C3: any number of `moving = false` updates, with arbitrary `dt` and
other inputs, leave velocity, position and all derived metrics
(air and rolling resistance, both losses, fuel rate, current engine
force) unchanged. -/
theorem C3_idle_frozen (s : VehicleState) (l : List IdleInput) :
    (idleRun s l).velocity = s.velocity ∧
    (idleRun s l).position = s.position ∧
    (idleRun s l).air_resistance = s.air_resistance ∧
    (idleRun s l).rolling_resistance = s.rolling_resistance ∧
    (idleRun s l).drag_losses = s.drag_losses ∧
    (idleRun s l).rr_losses = s.rr_losses ∧
    (idleRun s l).fuel_consumption_rate = s.fuel_consumption_rate ∧
    (idleRun s l).engine_force_current = s.engine_force_current := by
  induction l generalizing s with
  | nil => exact ⟨rfl, rfl, rfl, rfl, rfl, rfl, rfl, rfl⟩
  | cons i rest ih =>
    have h := ih { s with lap_time := s.lap_time + i.dt }
    simpa [idleRun, update_idle] using h

/-! ## C6 — epsilon decay and floor -/

/-- C6: epsilon starts at 1.0; each `QLearningAI.update` applies
`max(EPSILON_MIN, epsilon * EPSILON_DECAY)`, so after one update it is
0.9995 and it never drops below 0.05. -/
theorem C6_epsilon (n : ℕ) :
    epsAfter 0 = 1 ∧
    epsAfter 1 = 9995 / 10000 ∧
    epsAfter (n + 1) = epsStep (epsAfter n) ∧
    5 / 100 ≤ epsAfter n := by
  refine ⟨rfl, ?_, rfl, ?_⟩
  · norm_num [epsAfter, epsStep, EPSILON_START, EPSILON_MIN, EPSILON_DECAY,
      max_def]
  · induction n with
    | zero => norm_num [epsAfter, EPSILON_START]
    | succ k ih =>
      exact le_trans (by norm_num [EPSILON_MIN]) (le_max_left _ _)

/-! ## C5 — signed circular gap -/

/-- Python float `%` with a positive divisor lands in `[0, y)`. -/
lemma pyMod_bounds (x y : ℚ) (hy : 0 < y) :
    0 ≤ pyMod x y ∧ pyMod x y < y := by
  have hle : (⌊x / y⌋ : ℚ) * y ≤ x := by
    calc (⌊x / y⌋ : ℚ) * y ≤ x / y * y :=
          mul_le_mul_of_nonneg_right (Int.floor_le (x / y)) hy.le
      _ = x := div_mul_cancel₀ x hy.ne'
  have hlt : x < ((⌊x / y⌋ : ℚ) + 1) * y := by
    calc x = x / y * y := (div_mul_cancel₀ x hy.ne').symm
      _ < ((⌊x / y⌋ : ℚ) + 1) * y :=
          mul_lt_mul_of_pos_right (Int.lt_floor_add_one (x / y)) hy
  constructor
  · simp only [pyMod]
    nlinarith [hle]
  · simp only [pyMod]
    nlinarith [hlt]

/-- The wrap-corrected gap is strictly above `-TRACK_LEN/2` and at most
`TRACK_LEN/2`. -/
lemma signedGap_range (p a : ℚ) :
    -(TRACK_LEN / 2) < signedGap p a ∧ signedGap p a ≤ TRACK_LEN / 2 := by
  have hTL : (0:ℚ) < TRACK_LEN := by
    norm_num [TRACK_LEN, TOTAL_SEGMENTS, SEGMENT_LENGTH]
  have h := pyMod_bounds (p - a) TRACK_LEN hTL
  simp only [signedGap]
  split_ifs with hgt
  · constructor <;> linarith [h.1, h.2]
  · push_neg at hgt
    constructor <;> linarith [h.1]

/-- C5: the gap used by `_make_state` and `_compute_reward` is the raw
modulo gap `(player_pos - ai_pos) % TRACK_LEN`, reduced by `TRACK_LEN`
exactly when it exceeds `TRACK_LEN/2`; it always lies in
`(-TRACK_LEN/2, TRACK_LEN/2]`; both functions depend on the two positions
only through it; with the player at 100 and the AI at `TRACK_LEN - 50`
the gap is 150 and no wrap correction applies. -/
theorem C5_signed_gap (p a : ℚ) :
    signedGap p a =
      (if pyMod (p - a) TRACK_LEN > TRACK_LEN / 2
       then pyMod (p - a) TRACK_LEN - TRACK_LEN
       else pyMod (p - a) TRACK_LEN) ∧
    (-(TRACK_LEN / 2) < signedGap p a ∧ signedGap p a ≤ TRACK_LEN / 2) ∧
    (∀ sp lx, (makeState sp lx p a).2.2 =
        bucket (signedGap p a) (-(TRACK_LEN / 2)) (TRACK_LEN / 2) 5) ∧
    (∀ q b, signedGap p a = signedGap q b →
        ∀ sp lx onr, computeReward sp lx p a onr = computeReward sp lx q b onr) ∧
    signedGap 100 (TRACK_LEN - 50) = 150 ∧
    pyMod (100 - (TRACK_LEN - 50)) TRACK_LEN = 150 ∧
    ¬ pyMod (100 - (TRACK_LEN - 50)) TRACK_LEN > TRACK_LEN / 2 := by
  refine ⟨rfl, signedGap_range p a, fun sp lx => rfl, ?_, ?_, ?_, ?_⟩
  · intro q b hgap sp lx onr
    simp only [computeReward]
    rw [hgap]
  · norm_num [signedGap, pyMod, TRACK_LEN, TOTAL_SEGMENTS, SEGMENT_LENGTH,
      Int.floor_eq_iff]
  · norm_num [pyMod, TRACK_LEN, TOTAL_SEGMENTS, SEGMENT_LENGTH,
      Int.floor_eq_iff]
  · norm_num [pyMod, TRACK_LEN, TOTAL_SEGMENTS, SEGMENT_LENGTH,
      Int.floor_eq_iff]

/-- Witness for C5: the congruence hypothesis discharged at
`p = 100, a = TRACK_LEN - 50` against the same pair shifted by one full
track length. -/
theorem C5_witness :
    signedGap 100 (TRACK_LEN - 50) = signedGap (100 + TRACK_LEN) (TRACK_LEN - 50) ∧
    computeReward 0 0 100 (TRACK_LEN - 50) true =
      computeReward 0 0 (100 + TRACK_LEN) (TRACK_LEN - 50) true :=
  ⟨by norm_num [signedGap, pyMod, TRACK_LEN, TOTAL_SEGMENTS, SEGMENT_LENGTH,
      Int.floor_eq_iff],
   (C5_signed_gap 100 (TRACK_LEN - 50)).2.2.2.1 (100 + TRACK_LEN)
     (TRACK_LEN - 50)
     (by norm_num [signedGap, pyMod, TRACK_LEN, TOTAL_SEGMENTS,
        SEGMENT_LENGTH, Int.floor_eq_iff]) 0 0 true⟩

/-! ## C9 — at most 125 discretised states -/

/-- A 5-way bucket always lands in `[0, 4]`. -/
lemma bucket_range (v mn mx : ℚ) :
    0 ≤ bucket v mn mx 5 ∧ bucket v mn mx 5 ≤ 4 := by
  unfold bucket
  constructor
  · exact le_max_left 0 _
  · exact max_le (by norm_num)
      (le_trans (min_le_left _ _) (by norm_num))

/-- C9: every `_make_state` output has its three components in
`{0,…,4}`, so the Q-table keys range over a state space of exactly
`5 × 5 × 5 = 125` triples. -/
theorem C9_state_space (sp lx pp ap : ℚ) :
    makeState sp lx pp ap ∈ stateSpace ∧ stateSpace.card = 125 := by
  constructor
  · simp only [stateSpace, makeState, Finset.mem_product, Finset.mem_Icc]
    refine ⟨⟨(bucket_range _ _ _).1, (bucket_range _ _ _).2⟩,
      ⟨(bucket_range _ _ _).1, (bucket_range _ _ _).2⟩,
      (bucket_range _ _ _).1, (bucket_range _ _ _).2⟩
  · simp [stateSpace, Finset.card_product, Int.card_Icc]

/-! ## C7 — lap counting fires once per crossing -/

/-- While the tracked position stays inside the trigger zone and the
near-flag is latched, updates change neither the lap count nor the
flag. -/
lemma lapRun_inside (l : List (ℚ × ℚ)) :
    ∀ t : LapTracker, t.was_near = true → (∀ x ∈ l, x.2 < TRIGGER) →
    (lapRun t l).lap_count = t.lap_count ∧ (lapRun t l).was_near = true := by
  induction l with
  | nil => exact fun t hw _ => ⟨rfl, hw⟩
  | cons x xs ih =>
    intro t hw hl
    have hx : x.2 < TRIGGER := hl x (List.mem_cons_self x xs)
    have hstep : (t.update x.1 x.2).1 = { t with lap_time := t.lap_time + x.1 } := by
      simp [LapTracker.update, hw, hx]
    have hrest := ih { t with lap_time := t.lap_time + x.1 } hw
      (fun y hy => hl y (List.mem_cons_of_mem x hy))
    simpa [lapRun, hstep] using hrest

/-- C7: an update that enters the trigger zone `[0, 3·SEGMENT_LENGTH)`
with the near-flag clear and more than 2 s of accumulated lap time
increments `lap_count` exactly once, records the lap time as `best_lap`
when it is the first or the fastest lap, and resets the timer; while the
position stays inside the zone, further updates never increment the
count again. -/
theorem C7_lap_trigger :
    (∀ (t : LapTracker) (dt pos : ℚ),
        t.was_near = false → pos < TRIGGER → 2 < t.lap_time + dt →
        (t.update dt pos).1.lap_count = t.lap_count + 1 ∧
        (t.update dt pos).1.lap_time = 0 ∧
        (t.update dt pos).1.was_near = true ∧
        (t.update dt pos).1.best_lap =
          (match t.best_lap with
           | none => some (t.lap_time + dt)
           | some b =>
               if t.lap_time + dt < b then some (t.lap_time + dt)
               else some b)) ∧
    (∀ (t : LapTracker) (l : List (ℚ × ℚ)),
        t.was_near = true → (∀ x ∈ l, x.2 < TRIGGER) →
        (lapRun t l).lap_count = t.lap_count) := by
  constructor
  · intro t dt pos h1 h2 h3
    unfold LapTracker.update
    rw [if_pos ⟨h2, h1, h3⟩]
    exact ⟨rfl, rfl, rfl, rfl⟩
  · exact fun t l hw hl => (lapRun_inside l t hw hl).1

/-- Witness for C7: the spec scenario — the tracker is away from the
start line, the position drops from 1300 to 50 with 2.5 s accumulated;
the crossing counts one lap, and two further frames inside the zone
leave the count at 1. -/
theorem C7_witness :
    ((⟨0, 5/2, none, false⟩ : LapTracker).update (1/10) 50).1.lap_count = 0 + 1 ∧
    ((⟨0, 5/2, none, false⟩ : LapTracker).update (1/10) 50).1.lap_time = 0 ∧
    ((⟨0, 5/2, none, false⟩ : LapTracker).update (1/10) 50).1.was_near = true ∧
    ((⟨0, 5/2, none, false⟩ : LapTracker).update (1/10) 50).1.best_lap =
      some (5/2 + 1/10) ∧
    (lapRun ⟨1, 0, some (13/5), true⟩ [(1/10, 50), (1/10, 100)]).lap_count = 1 :=
  ⟨((C7_lap_trigger.1 ⟨0, 5/2, none, false⟩ (1/10) 50 rfl (by norm_num [TRIGGER, SEGMENT_LENGTH])
      (by norm_num))).1,
   ((C7_lap_trigger.1 ⟨0, 5/2, none, false⟩ (1/10) 50 rfl (by norm_num [TRIGGER, SEGMENT_LENGTH])
      (by norm_num))).2.1,
   ((C7_lap_trigger.1 ⟨0, 5/2, none, false⟩ (1/10) 50 rfl (by norm_num [TRIGGER, SEGMENT_LENGTH])
      (by norm_num))).2.2.1,
   ((C7_lap_trigger.1 ⟨0, 5/2, none, false⟩ (1/10) 50 rfl (by norm_num [TRIGGER, SEGMENT_LENGTH])
      (by norm_num))).2.2.2,
   C7_lap_trigger.2 ⟨1, 0, some (13/5), true⟩ [(1/10, 50), (1/10, 100)] rfl
     (by intro x hx; fin_cases hx <;> norm_num [TRIGGER, SEGMENT_LENGTH])⟩

/-! ## C4 — Q-value convergence towards reward/(1 - γ) -/

/-- When the row maximum sits at the updated entry, one `_update_q` step
is the affine map `q ↦ (247/250)·q + (3/20)·r`. -/
lemma qIter_step (q0 : QTable) (s : QState) (a : QAction) (r : ℚ) (n : ℕ)
    (hb : bestVal (qIter q0 s a r n) s = qIter q0 s a r n s a) :
    qIter q0 s a r (n + 1) s a =
      (247/250) * qIter q0 s a r n s a + (3/20) * r := by
  show updateQ (qIter q0 s a r n) s a r s s a = _
  unfold updateQ
  rw [if_pos ⟨rfl, rfl⟩, hb]
  norm_num [ALPHA, GAMMA]
  ring

/-- Closed form of the repeated self-update from a zero entry. -/
lemma qIter_closed (q0 : QTable) (s : QState) (a : QAction) (r : ℚ)
    (h0 : q0 s a = 0)
    (hb : ∀ n, bestVal (qIter q0 s a r n) s = qIter q0 s a r n s a) :
    ∀ n, qIter q0 s a r n s a = (1 - (247/250) ^ n) * (r / (1 - GAMMA)) := by
  intro n
  induction n with
  | zero => simpa [qIter] using h0
  | succ k ih =>
    rw [qIter_step q0 s a r k (hb k), ih]
    norm_num [GAMMA]
    ring

/-- C4: with the row initially zero and the updated action remaining the
best of its row, the sequence `Q[s][a]` follows the closed form
`(1 - (247/250)^n)·(r/(1-γ))`: it is monotone in the direction of the
sign of `r`, stays between 0 and `r/(1-γ)`, and its distance to
`r/(1-γ)` contracts by the factor `247/250` each step. -/
theorem C4_q_convergence (q0 : QTable) (s : QState) (a : QAction) (r : ℚ)
    (h0 : ∀ b, q0 s b = 0)
    (hb : ∀ n, bestVal (qIter q0 s a r n) s = qIter q0 s a r n s a) :
    ∀ n,
      qIter q0 s a r n s a = (1 - (247/250) ^ n) * (r / (1 - GAMMA)) ∧
      (0 ≤ r → qIter q0 s a r n s a ≤ qIter q0 s a r (n + 1) s a ∧
               qIter q0 s a r n s a ≤ r / (1 - GAMMA)) ∧
      (r ≤ 0 → qIter q0 s a r (n + 1) s a ≤ qIter q0 s a r n s a ∧
               r / (1 - GAMMA) ≤ qIter q0 s a r n s a) ∧
      |r / (1 - GAMMA) - qIter q0 s a r n s a| =
        (247/250) ^ n * |r / (1 - GAMMA)| := by
  intro n
  have hc := qIter_closed q0 s a r (h0 a) hb
  have hn := hc n
  have hn1 := hc (n + 1)
  have hpow : (0:ℚ) < (247/250) ^ n := pow_pos (by norm_num) n
  have hdec : (247/250:ℚ) ^ (n + 1) ≤ (247/250) ^ n := by
    rw [pow_succ]
    nlinarith [hpow]
  have hgam : (1:ℚ) - GAMMA = 2/25 := by norm_num [GAMMA]
  refine ⟨hn, ?_, ?_, ?_⟩
  · intro hr
    have ht : 0 ≤ r / (1 - GAMMA) := by
      rw [hgam]
      positivity
    rw [hn, hn1]
    constructor
    · exact mul_le_mul_of_nonneg_right (by linarith) ht
    · nlinarith [hpow, ht]
  · intro hr
    have ht : r / (1 - GAMMA) ≤ 0 := by
      rw [hgam]
      exact div_nonpos_of_nonpos_of_nonneg hr (by norm_num)
    rw [hn, hn1]
    constructor
    · nlinarith [hpow, ht, hdec]
    · nlinarith [hpow, ht]
  · rw [hn]
    have h1 : r / (1 - GAMMA) - (1 - (247/250) ^ n) * (r / (1 - GAMMA)) =
        (247/250) ^ n * (r / (1 - GAMMA)) := by ring
    rw [h1, abs_mul, abs_of_nonneg hpow.le]

/-- Bookkeeping for the witness of C4: starting from the all-zero table
with reward 1 at action 0 of state `(0,0,0)`, the other entries of the
row stay 0, the updated entry stays nonnegative, and the row maximum is
the updated entry. -/
lemma c4_best_stays : ∀ n,
    (∀ b : QAction, ¬ b = 0 → qIter zeroQ (0,0,0) 0 1 n (0,0,0) b = 0) ∧
    0 ≤ qIter zeroQ (0,0,0) 0 1 n (0,0,0) 0 ∧
    bestVal (qIter zeroQ (0,0,0) 0 1 n) (0,0,0) =
      qIter zeroQ (0,0,0) 0 1 n (0,0,0) 0 := by
  intro n
  induction n with
  | zero =>
    refine ⟨fun b hb => rfl, le_refl 0, ?_⟩
    show (0:ℚ) ⊔ 0 ⊔ 0 ⊔ 0 ⊔ 0 = 0
    simp
  | succ k ih =>
    obtain ⟨hoth, hnn, hbest⟩ := ih
    have hstep : qIter zeroQ (0,0,0) 0 1 (k + 1) (0,0,0) 0 =
        (247/250) * qIter zeroQ (0,0,0) 0 1 k (0,0,0) 0 + 3/20 := by
      have h := qIter_step zeroQ (0,0,0) 0 1 k hbest
      rw [h]
      ring
    have hoth1 : ∀ b : QAction, ¬ b = 0 →
        qIter zeroQ (0,0,0) 0 1 (k + 1) (0,0,0) b = 0 := by
      intro b hb
      show updateQ (qIter zeroQ (0,0,0) 0 1 k) (0,0,0) 0 1 (0,0,0) (0,0,0) b = 0
      unfold updateQ
      rw [if_neg (fun hcon => hb hcon.2)]
      exact hoth b hb
    have hnn1 : 0 ≤ qIter zeroQ (0,0,0) 0 1 (k + 1) (0,0,0) 0 := by
      rw [hstep]
      linarith
    refine ⟨hoth1, hnn1, ?_⟩
    unfold bestVal
    rw [hoth1 1 (by decide), hoth1 2 (by decide), hoth1 3 (by decide),
      hoth1 4 (by decide)]
    rw [sup_of_le_left hnn1, sup_of_le_left hnn1, sup_of_le_left hnn1,
      sup_of_le_left hnn1]

/-- Witness for C4: the all-zero table, state `(0,0,0)`, action 0,
reward 1, evaluated at `n = 1`. -/
theorem C4_witness :
    (∀ b : QAction, zeroQ (0,0,0) b = 0) ∧
    (∀ n, bestVal (qIter zeroQ (0,0,0) 0 1 n) (0,0,0) =
        qIter zeroQ (0,0,0) 0 1 n (0,0,0) 0) ∧
    (qIter zeroQ (0,0,0) 0 1 1 (0,0,0) 0 =
        (1 - (247/250) ^ 1) * (1 / (1 - GAMMA)) ∧
     ((0:ℚ) ≤ 1 → qIter zeroQ (0,0,0) 0 1 1 (0,0,0) 0 ≤
          qIter zeroQ (0,0,0) 0 1 (1 + 1) (0,0,0) 0 ∧
        qIter zeroQ (0,0,0) 0 1 1 (0,0,0) 0 ≤ 1 / (1 - GAMMA)) ∧
     ((1:ℚ) ≤ 0 → qIter zeroQ (0,0,0) 0 1 (1 + 1) (0,0,0) 0 ≤
          qIter zeroQ (0,0,0) 0 1 1 (0,0,0) 0 ∧
        1 / (1 - GAMMA) ≤ qIter zeroQ (0,0,0) 0 1 1 (0,0,0) 0) ∧
     |1 / (1 - GAMMA) - qIter zeroQ (0,0,0) 0 1 1 (0,0,0) 0| =
        (247/250) ^ 1 * |1 / (1 - GAMMA)|) :=
  ⟨fun b => rfl, fun n => (c4_best_stays n).2.2,
   C4_q_convergence zeroQ (0,0,0) 0 1 (fun b => rfl)
     (fun n => (c4_best_stays n).2.2) 1⟩

/-! ## C10 — idle update adds dt to the lap timer and nothing else -/

/-- C10: `update(dt, moving=False)` adds exactly `dt` to `lap_time` and
modifies no other field of the state. -/
theorem C10_idle_lap_time (s : VehicleState) (ss sc dt tb : ℚ)
    (br : Bool) :
    (s.update ss sc dt false tb br).lap_time = s.lap_time + dt ∧
    s.update ss sc dt false tb br = { s with lap_time := s.lap_time + dt } :=
  ⟨rfl, rfl⟩


/-! ## C8 — leaderboard sorting -/

/-- Inserting is a permutation of consing. -/
lemma insDesc_perm (x : ScoreRec) (l : List ScoreRec) :
    List.Perm (insDesc x l) (x :: l) := by
  induction l with
  | nil => exact List.Perm.refl _
  | cons y ys ih =>
    simp only [insDesc]
    split_ifs with hxy
    · exact List.Perm.refl _
    · exact (ih.cons y).trans (List.Perm.swap x y ys)

/-- The insertion fold permutes `acc ++ l`. -/
lemma foldl_ins_perm (l : List ScoreRec) :
    ∀ acc : List ScoreRec,
      List.Perm (l.foldl (fun acc x => insDesc x acc) acc) (acc ++ l) := by
  induction l with
  | nil => simp
  | cons x xs ih =>
    intro acc
    have h1 := ih (insDesc x acc)
    have h2 : List.Perm (insDesc x acc ++ xs) ((x :: acc) ++ xs) :=
      (insDesc_perm x acc).append_right xs
    have h3 : List.Perm (acc ++ x :: xs) (x :: (acc ++ xs)) :=
      List.perm_middle
    exact (h1.trans h2).trans h3.symm

/-- Insertion sort permutes its input. -/
lemma isortDesc_perm (l : List ScoreRec) : List.Perm (isortDesc l) l := by
  simpa [isortDesc] using foldl_ins_perm l []

/-- Inserting into a descending list keeps it descending. -/
lemma insDesc_sorted (x : ScoreRec) (l : List ScoreRec)
    (h : List.Sorted scoreGE l) : List.Sorted scoreGE (insDesc x l) := by
  induction l with
  | nil => simp [insDesc]
  | cons y ys ih =>
    rw [List.sorted_cons] at h
    simp only [insDesc]
    split_ifs with hxy
    · rw [List.sorted_cons]
      refine ⟨?_, List.sorted_cons.mpr h⟩
      intro b hb
      rcases List.mem_cons.mp hb with rfl | hbys
      · exact le_of_lt hxy
      · exact le_trans (h.1 b hbys) (le_of_lt hxy)
    · rw [List.sorted_cons]
      constructor
      · intro b hb
        rcases List.mem_cons.mp ((insDesc_perm x ys).mem_iff.mp hb) with rfl | hbys
        · exact le_of_not_lt hxy
        · exact h.1 b hbys
      · exact ih h.2

/-- The insertion fold preserves sortedness of the accumulator. -/
lemma foldl_ins_sorted (l : List ScoreRec) :
    ∀ acc : List ScoreRec, List.Sorted scoreGE acc →
      List.Sorted scoreGE (l.foldl (fun acc x => insDesc x acc) acc) := by
  induction l with
  | nil => exact fun acc h => h
  | cons x xs ih => exact fun acc h => ih _ (insDesc_sorted x acc h)

/-- Insertion sort sorts descending. -/
lemma isortDesc_sorted (l : List ScoreRec) :
    List.Sorted scoreGE (isortDesc l) :=
  foldl_ins_sorted l [] List.sorted_nil

/-- Merging permutes the concatenation of its inputs. -/
lemma mergeDesc_perm : ∀ l r : List ScoreRec,
    List.Perm (mergeDesc l r) (l ++ r)
  | [], r => by simp [mergeDesc]
  | a :: l, [] => by simp [mergeDesc]
  | a :: l, b :: r => by
    simp only [mergeDesc]
    split_ifs with hab
    · exact (mergeDesc_perm l (b :: r)).cons a
    · exact ((mergeDesc_perm (a :: l) r).cons b).trans List.perm_middle.symm
termination_by l r => l.length + r.length
decreasing_by
  · simp only [List.length_cons]
    omega
  · simp only [List.length_cons]
    omega

/-- Merging two descending lists is descending. -/
lemma mergeDesc_sorted : ∀ l r : List ScoreRec,
    List.Sorted scoreGE l → List.Sorted scoreGE r →
    List.Sorted scoreGE (mergeDesc l r)
  | [], r, _, hr => by simpa [mergeDesc] using hr
  | a :: l, [], hl, _ => by simpa [mergeDesc] using hl
  | a :: l, b :: r, hl, hr => by
    rw [List.sorted_cons] at hl hr
    simp only [mergeDesc]
    split_ifs with hab
    · rw [List.sorted_cons]
      constructor
      · intro z hz
        rcases List.mem_append.mp
            ((mergeDesc_perm l (b :: r)).mem_iff.mp hz) with hzl | hzbr
        · exact hl.1 z hzl
        · rcases List.mem_cons.mp hzbr with rfl | hzr
          · exact le_of_lt hab
          · exact le_trans (hr.1 z hzr) (le_of_lt hab)
      · exact mergeDesc_sorted l (b :: r) hl.2 (List.sorted_cons.mpr hr)
    · rw [List.sorted_cons]
      constructor
      · intro z hz
        rcases List.mem_append.mp
            ((mergeDesc_perm (a :: l) r).mem_iff.mp hz) with hzal | hzr
        · rcases List.mem_cons.mp hzal with rfl | hzl
          · exact le_of_not_lt hab
          · exact le_trans (hl.1 z hzl) (le_of_not_lt hab)
        · exact hr.1 z hzr
      · exact mergeDesc_sorted (a :: l) r (List.sorted_cons.mpr hl) hr.2
termination_by l r => l.length + r.length
decreasing_by
  · simp only [List.length_cons]
    omega
  · simp only [List.length_cons]
    omega

/-- The merge sort permutes its input. -/
lemma msortScores_perm (l : List ScoreRec) : List.Perm (msortScores l) l := by
  rw [msortScores]
  split_ifs with h
  · exact isortDesc_perm l
  · have he : l.take ((l.length - 1) / 2 + 1) ++ l.drop ((l.length - 1) / 2 + 1) = l :=
      List.take_append_drop _ _
    have hp : List.Perm
        (msortScores (l.take ((l.length - 1) / 2 + 1)) ++
          msortScores (l.drop ((l.length - 1) / 2 + 1)))
        (l.take ((l.length - 1) / 2 + 1) ++ l.drop ((l.length - 1) / 2 + 1)) :=
      List.Perm.append
        (msortScores_perm (l.take ((l.length - 1) / 2 + 1)))
        (msortScores_perm (l.drop ((l.length - 1) / 2 + 1)))
    have he2 : List.Perm
        (l.take ((l.length - 1) / 2 + 1) ++ l.drop ((l.length - 1) / 2 + 1)) l := by
      rw [he]
    exact ((mergeDesc_perm _ _).trans hp).trans he2
termination_by l.length
decreasing_by
  · simp only [List.length_take]
    omega
  · simp only [List.length_drop]
    omega

/-- The merge sort output is descending by score. -/
lemma msortScores_sorted (l : List ScoreRec) :
    List.Sorted scoreGE (msortScores l) := by
  rw [msortScores]
  split_ifs with h
  · exact isortDesc_sorted l
  · exact mergeDesc_sorted _ _
      (msortScores_sorted (l.take ((l.length - 1) / 2 + 1)))
      (msortScores_sorted (l.drop ((l.length - 1) / 2 + 1)))
termination_by l.length
decreasing_by
  · simp only [List.length_take]
    omega
  · simp only [List.length_drop]
    omega

/-- C8 counterexample: eleven records with one common score are split
6/5 by `merge_sort_scores`; `_merge` emits the right half before the
equal-scored left half, so the relative input order of equal scores is
not preserved. -/
theorem C8_stability_counterexample :
    msortScores elevenEqual =
      [(6,0),(7,0),(8,0),(9,0),(10,0),(0,0),(1,0),(2,0),(3,0),(4,0),(5,0)] ∧
    msortScores elevenEqual ≠ elevenEqual := by
  have he : msortScores elevenEqual =
      [(6,0),(7,0),(8,0),(9,0),(10,0),(0,0),(1,0),(2,0),(3,0),(4,0),(5,0)] := by
    rw [msortScores, dif_neg (by decide)]
    have ht : elevenEqual.take ((elevenEqual.length - 1) / 2 + 1) =
        [(0,0),(1,0),(2,0),(3,0),(4,0),(5,0)] := by decide
    have hd : elevenEqual.drop ((elevenEqual.length - 1) / 2 + 1) =
        [(6,0),(7,0),(8,0),(9,0),(10,0)] := by decide
    rw [ht, hd]
    rw [msortScores, dif_pos (by decide)]
    rw [msortScores, dif_pos (by decide)]
    norm_num [mergeDesc, isortDesc, insDesc]
  refine ⟨he, ?_⟩
  rw [he]
  decide

/-- C8 (amended): `merge_sort_scores` arranges any record list into
descending order by score as a permutation of the input — in particular
scores `[10, 50, 30]` come out as `[50, 30, 10]` — but ties are only
preserved inside insertion-sorted runs of at most 10 records: `_merge`
places equal-scored records of the right half before those of the left
half. -/
theorem C8_sort_descending (l : List ScoreRec) :
    List.Perm (msortScores l) l ∧
    List.Sorted scoreGE (msortScores l) ∧
    msortScores [(0,10),(1,50),(2,30)] = [(1,50),(2,30),(0,10)] := by
  refine ⟨msortScores_perm l, msortScores_sorted l, ?_⟩
  rw [msortScores]
  norm_num [isortDesc, insDesc]

end VES
